import Mathlib

/-!
Verification of the UrbanSentinel risk-analysis pipeline.

The definitions below are a shallow embedding of the Python sources:
`src/backend/language.py`, `src/backend/analyzer.py`, `src/backend/scorer.py`,
`src/backend/models.py` and `src/config.py`.  Python strings are modelled as
lists of characters, Python ints as `Int`/`Nat`, and Python floats as exact
rationals (`ℚ`).  `round(x, n)` is modelled as round-half-to-even on
`x * 10^n`, matching CPython's behaviour on exactly representable values.
The statistical classifier (`ml_classifier.py`, an sklearn TF-IDF + naive
Bayes pipeline) is modelled as an oracle parameter `predict : Str → RiskCategory × ℚ`
supplying the predicted category and its posterior-probability confidence.
-/

namespace UrbanSentinel

/-! ## Python string primitives -/

abbrev Str := List Char

/-- `str.lower()` (the keyword tables are ASCII, where `Char.toLower` agrees
with Python's case folding; CJK characters are fixed points in both). -/
def pyLower (s : Str) : Str := s.map Char.toLower

/-- Characters removed by `str.strip()` (ASCII whitespace). -/
def pyIsSpace (c : Char) : Bool :=
  c == ' ' || c == '\t' || c == '\n' || c == '\r' || c == '\x0b' || c == '\x0c'

/-- `str.strip()`: drop leading and trailing whitespace. -/
def pyStrip (s : Str) : Str :=
  ((s.dropWhile pyIsSpace).reverse.dropWhile pyIsSpace).reverse

/-- Does `hay` start with `needle`? -/
def startsWith : Str → Str → Bool
  | [], _ => true
  | _ :: _, [] => false
  | a :: as, b :: bs => a == b && startsWith as bs

/-- Python's `needle in hay`: contiguous-substring containment. -/
def containsSub (needle : Str) : Str → Bool
  | [] => needle.isEmpty
  | c :: rest => startsWith needle (c :: rest) || containsSub needle rest

/-! ## `src/backend/language.py` — language detection -/

inductive Lang
  | en
  | zh
deriving DecidableEq, Repr

/-- A character in the CJK unified-ideograph range `[一-鿿]`. -/
def isCJK (c : Char) : Bool := 0x4e00 ≤ c.toNat && c.toNat ≤ 0x9fff

/-- `len(re.findall(r'[一-鿿]', text))`. -/
def cjkCount (s : Str) : Nat := (s.filter isCJK).length

/-- `detect_language` from `language.py`: CJK count over the FULL text,
denominator `max(len(text.strip()), 1)`. -/
def detect_language (text : Str) : Lang :=
  let total : ℕ := max (pyStrip text).length 1
  if (cjkCount text : ℚ) / (total : ℚ) > 0.15 then Lang.zh else Lang.en

/-- The ratio the detector actually compares with 0.15: CJK characters of
the full text over `max(len(text.strip()), 1)`. -/
def langRatio (text : Str) : ℚ :=
  (cjkCount text : ℚ) / ((max (pyStrip text).length 1 : ℕ) : ℚ)

theorem detect_language_eq (text : Str) :
    detect_language text = if langRatio text > 0.15 then Lang.zh else Lang.en := rfl

/-- Concrete input separating the code's denominator (stripped length)
from the claim's denominator (raw length): one CJK character followed by
six spaces. -/
def cexC3 : Str := '汉' :: List.replicate 6 ' '

/-- **C3, counterexample.**  The claim states the detector compares
`cjkCount text / max (length text) 1` with 0.15.  On one CJK character
followed by six spaces the code returns `zh` (it divides by the length of
the *stripped* text, 1), while the claim's ratio 1/7 does not exceed 0.15. -/
theorem C3_counterexample :
    detect_language cexC3 = Lang.zh ∧
    ¬ ((cjkCount cexC3 : ℚ) / ((max cexC3.length 1 : ℕ) : ℚ) > 0.15) := by
  have h1 : cjkCount cexC3 = 1 := by decide
  have h2 : (pyStrip cexC3).length = 1 := by decide
  have h3 : cexC3.length = 7 := by decide
  constructor
  · rw [detect_language_eq]
    rw [show langRatio cexC3 = (cjkCount cexC3 : ℚ) / ((max (pyStrip cexC3).length 1 : ℕ) : ℚ) from rfl, h1, h2]
    norm_num
  · rw [h1, h3]
    norm_num

/-- **C3, amended.**  `detect_language` returns `zh` exactly when the number
of CJK characters in the text, divided by `max(length of the
whitespace-stripped text, 1)`, exceeds 0.15; the empty string yields `en`. -/
theorem C3_detect_language_spec (text : Str) :
    (detect_language text = Lang.zh ↔ langRatio text > 0.15) ∧
    detect_language [] = Lang.en := by
  constructor
  · rw [detect_language_eq]
    split_ifs with h
    · simp [h]
    · simp [h]
  · have h0 : langRatio [] = 0 := by
      rw [show langRatio [] = (cjkCount ([] : Str) : ℚ) / ((max (pyStrip []).length 1 : ℕ) : ℚ) from rfl]
      norm_num [cjkCount]
    rw [detect_language_eq, h0]
    norm_num

/-! ## `src/backend/models.py` — enumerations and records -/

inductive SourceType
  | government
  | news
  | citizen_report
  | social_media
deriving DecidableEq, Repr

inductive RiskCategory
  | crime
  | traffic
  | fraud
  | infrastructure
deriving DecidableEq, Repr, Fintype

/-- Position of a category in the declaration (= dict-iteration) order of
the keyword tables. -/
def RiskCategory.declIdx : RiskCategory → ℕ
  | .crime => 0
  | .traffic => 1
  | .fraud => 2
  | .infrastructure => 3

inductive EconomicImpact
  | low
  | medium
  | high
deriving DecidableEq, Repr

/-- The string value of each `RiskCategory` enum member. -/
def RiskCategory.value : RiskCategory → Str
  | .crime => "Crime".data
  | .traffic => "Traffic".data
  | .fraud => "Fraud".data
  | .infrastructure => "Infrastructure Failure".data

/-- Raw public signal input.  The timestamp is modelled by its age in hours
relative to the scoring reference instant (`datetime.now` in `scorer.py`);
a smaller `hoursAgo` is a more recent timestamp. -/
structure Signal where
  id : Str
  text : Str
  source : SourceType
  location : Str
  hoursAgo : ℚ
deriving DecidableEq, Repr

/-- Structured output of the risk analysis. -/
structure RiskAnalysis where
  category : RiskCategory
  risk_level : ℤ
  economic_impact : EconomicImpact
  confidence : ℚ
  keywords : List Str
  summary : Str
deriving DecidableEq, Repr

/-- Pydantic validation of `RiskAnalysis`: `risk_level` carries
`Field(ge=1, le=5)` and `confidence` carries `Field(ge=0.0, le=1.0)`;
construction returns the record unchanged when the bounds hold and raises
(`none`) otherwise. -/
def mkRiskAnalysis (category : RiskCategory) (risk_level : ℤ)
    (economic_impact : EconomicImpact) (confidence : ℚ)
    (keywords : List Str) (summary : Str) : Option RiskAnalysis :=
  if 1 ≤ risk_level ∧ risk_level ≤ 5 ∧ 0 ≤ confidence ∧ confidence ≤ 1 then
    some ⟨category, risk_level, economic_impact, confidence, keywords, summary⟩
  else
    none

/-- Final scored alert ready for the dashboard (`rank = 0` until ranking). -/
structure PrioritizedAlert where
  signal : Signal
  analysis : RiskAnalysis
  priority_score : ℚ
  rank : ℤ
deriving DecidableEq, Repr

/-! ## Keyword tables from `analyzer.py` and `language.py` -/

def strs (l : List String) : List Str := l.map String.data

/-- The keyword list of each category in the English table of
`analyzer.py`. -/
def catKeywords : RiskCategory → List Str
  | .crime => strs ["robbery", "robber", "theft", "steal", "shoplifting",
      "violence", "assault", "murder", "drug", "vandalism",
      "pickpocket", "gang", "hit-and-run", "domestic violence"]
  | .traffic => strs ["traffic", "accident", "pileup", "collision", "gridlock",
      "lane closed", "lane blocked", "delays", "suspended",
      "bus", "subway", "metro", "commuter", "expressway",
      "brake failure", "signal malfunction"]
  | .fraud => strs ["scam", "fraud", "phishing", "fake", "identity theft",
      "cryptocurrency", "ponzi", "impersonat",
      "investment fraud"]
  | .infrastructure => strs ["collapse", "crack", "sinkhole", "flood", "power outage",
      "water main", "gas leak", "pothole", "bridge",
      "elevator", "street light", "outage", "burst",
      "dumping", "railing", "building inspector"]

/-- The `CATEGORY_KEYWORDS` dict of `analyzer.py` in its insertion order. -/
def CATEGORY_KEYWORDS : List (RiskCategory × List Str) :=
  [(.crime, catKeywords .crime),
   (.traffic, catKeywords .traffic),
   (.fraud, catKeywords .fraud),
   (.infrastructure, catKeywords .infrastructure)]

def HIGH_SEVERITY : List Str :=
  strs ["injur", "killed", "death", "collapse", "armed", "trapped",
    "child", "hospital", "emergency", "critical", "surge",
    "12,000", "thousands", "$2M", "flood warning"]

def MEDIUM_SEVERITY : List Str :=
  strs ["closed", "blocked", "suspended", "multiple", "increased",
    "malfunction", "failure", "outage", "damage", "hazard"]

def ZH_HIGH_SEVERITY : List Str :=
  strs ["受伤", "死亡", "坍塌", "持械", "被困",
    "儿童", "医院", "紧急", "危急", "数千"]

def ZH_MEDIUM_SEVERITY : List Str :=
  strs ["封闭", "阻断", "停运", "多起", "增加",
    "故障", "损坏", "危险", "中断"]

/-- The keyword list of each category in the Chinese table of
`language.py`. -/
def zhCatKeywords : RiskCategory → List Str
  | .crime => strs ["抢劫", "盗窃", "偷窃", "暴力", "袭击", "谋杀",
      "毒品", "破坏", "扒窃", "帮派", "家暴", "犯罪",
      "斗殴", "持刀", "持枪", "绑架", "勒索"]
  | .traffic => strs ["交通", "事故", "碰撞", "拥堵", "堵车", "封路",
      "地铁", "公交", "高速", "追尾", "闯红灯",
      "信号灯", "故障", "延误", "停运"]
  | .fraud => strs ["诈骗", "欺诈", "钓鱼", "假冒", "身份盗窃",
      "传销", "庞氏骗局", "冒充", "虚假投资",
      "电信诈骗", "网络诈骗", "骗局"]
  | .infrastructure => strs ["坍塌", "裂缝", "天坑", "洪水", "停电",
      "水管爆裂", "燃气泄漏", "路面塌陷", "桥梁",
      "电梯", "路灯", "断电", "管道破裂", "积水"]

/-- The `ZH_CATEGORY_KEYWORDS` dict of `language.py` in its insertion
order. -/
def ZH_CATEGORY_KEYWORDS : List (RiskCategory × List Str) :=
  [(.crime, zhCatKeywords .crime),
   (.traffic, zhCatKeywords .traffic),
   (.fraud, zhCatKeywords .fraud),
   (.infrastructure, zhCatKeywords .infrastructure)]

/-! ## Keyword matching (`_match_category`, `match_zh_category`) -/

/-- The keywords of `searchText` present in `kws`, in table order
(`[kw for kw in keywords if kw in text]`). -/
def hitsIn (searchText : Str) (kws : List Str) : List Str :=
  kws.filter (fun kw => containsSub kw searchText)

/-- The `for cat, keywords in ...items()` loop shared by `_match_category`
and `match_zh_category`: best-so-far category, score and hits, updated only
on a strictly larger hit count. -/
def matchGo (searchText : Str) :
    List (RiskCategory × List Str) → RiskCategory → ℕ → List Str →
    RiskCategory × List Str
  | [], bestCat, _, bestKw => (bestCat, bestKw)
  | (cat, kws) :: rest, bestCat, bestScore, bestKw =>
    let hits := hitsIn searchText kws
    if bestScore < hits.length then
      matchGo searchText rest cat hits.length hits
    else
      matchGo searchText rest bestCat bestScore bestKw

/-- `_match_category` from `analyzer.py`: case-insensitive matching over
`CATEGORY_KEYWORDS`, result truncated to the first five matches. -/
def _match_category (text : Str) : RiskCategory × List Str :=
  let r := matchGo (pyLower text) CATEGORY_KEYWORDS RiskCategory.infrastructure 0 []
  (r.1, r.2.take 5)

/-- `match_zh_category` from `language.py`: exact matching over
`ZH_CATEGORY_KEYWORDS`, result truncated to the first five matches. -/
def match_zh_category (text : Str) : RiskCategory × List Str :=
  let r := matchGo text ZH_CATEGORY_KEYWORDS RiskCategory.infrastructure 0 []
  (r.1, r.2.take 5)

/-! ## Severity assessment (`_assess_severity`) -/

/-- `sum(1 for kw in kws if kw in searchText)`. -/
def countHits (searchText : Str) (kws : List Str) : ℕ :=
  (hitsIn searchText kws).length

/-- Distinct high-severity hits for a text under a language. -/
def highHits (text : Str) (lang : Lang) : ℕ :=
  match lang with
  | .zh => countHits text ZH_HIGH_SEVERITY
  | .en => countHits (pyLower text) HIGH_SEVERITY

/-- Distinct medium-severity hits for a text under a language. -/
def medHits (text : Str) (lang : Lang) : ℕ :=
  match lang with
  | .zh => countHits text ZH_MEDIUM_SEVERITY
  | .en => countHits (pyLower text) MEDIUM_SEVERITY

/-- `_assess_severity` from `analyzer.py`: risk level (1-5) and economic
impact from escalation-keyword hit counts. -/
def _assess_severity (text : Str) (lang : Lang) : ℤ × EconomicImpact :=
  let high_hits := highHits text lang
  let med_hits := medHits text lang
  if 2 ≤ high_hits then (5, .high)
  else if high_hits = 1 then (4, .high)
  else if 2 ≤ med_hits then (3, .medium)
  else if med_hits = 1 then (2, .medium)
  else (1, .low)

/-! ## Python `round` as round-half-to-even on rationals -/

/-- Round to the nearest integer, ties to the even neighbour (CPython's
`round`). -/
def roundHalfEven (q : ℚ) : ℤ :=
  if q - ⌊q⌋ = 1 / 2 then (if ⌊q⌋ % 2 = 0 then ⌊q⌋ else ⌊q⌋ + 1) else round q

/-- Python `round(q, n)`. -/
def pyRound (q : ℚ) (n : ℕ) : ℚ :=
  (roundHalfEven (q * 10 ^ n) : ℚ) / 10 ^ n

/-! ## `_hybrid_classify` and `analyze_signal` from `analyzer.py`

The statistical classifier is the oracle argument
`predict : Str → RiskCategory × ℚ` (category and posterior-probability
confidence of `RiskClassifier.predict`). -/

/-- `kw_confidence = min(0.95, 0.5 + len(keywords) * 0.1)`. -/
def kwConfidence (numKeywords : ℕ) : ℚ :=
  min 0.95 (0.5 + (numKeywords : ℚ) * 0.1)

/-- The language-appropriate keyword matcher invoked by
`_hybrid_classify`. -/
def kwResult (text : Str) (lang : Lang) : RiskCategory × List Str :=
  match lang with
  | .zh => match_zh_category text
  | .en => _match_category text

/-- `_hybrid_classify`: keyword matching (60%) combined with the ML
prediction (40%); returns final category, matched keywords and rounded
confidence. -/
def _hybrid_classify (predict : Str → RiskCategory × ℚ) (text : Str)
    (lang : Lang) : RiskCategory × List Str × ℚ :=
  let kwr := kwResult text lang
  let kw_category := kwr.1
  let keywords := kwr.2
  let kw_confidence := kwConfidence keywords.length
  let mlr := predict text
  let ml_category := mlr.1
  let ml_confidence := mlr.2
  let fc : RiskCategory × ℚ :=
    if kw_category = ml_category then
      (kw_category, min 0.95 (kw_confidence * 0.6 + ml_confidence * 0.4 + 0.05))
    else if 2 ≤ keywords.length then
      (kw_category, kw_confidence * 0.7 + ml_confidence * 0.3)
    else if ml_confidence > 0.6 ∧ lang = Lang.en then
      (ml_category, ml_confidence * 0.6 + kw_confidence * 0.4)
    else
      (kw_category, kw_confidence * 0.6 + ml_confidence * 0.4)
  (fc.1, keywords, pyRound (min fc.2 0.95) 2)

/-- `analyze_signal`: language detection, hybrid classification, severity
assessment and summary generation for one signal. -/
def analyze_signal (predict : Str → RiskCategory × ℚ) (signal : Signal) :
    RiskAnalysis :=
  let text := signal.text
  let lang := detect_language text
  let hc := _hybrid_classify predict text lang
  let category := hc.1
  let keywords := hc.2.1
  let confidence := hc.2.2
  let sev := _assess_severity text lang
  let summary : Str :=
    match lang with
    | .zh =>
      let first_sentence := pyStrip (text.takeWhile (fun c => c ≠ '。'))
      category.value ++ " 风险检测: ".data ++ first_sentence ++ "。".data
    | .en =>
      let first_sentence := pyStrip (text.takeWhile (fun c => c ≠ '.'))
      category.value ++ " risk detected: ".data ++ first_sentence ++ ".".data
  { category := category
    risk_level := sev.1
    economic_impact := sev.2
    confidence := confidence
    keywords := if keywords.isEmpty then [pyLower category.value] else keywords
    summary := summary }

/-! ## `src/backend/scorer.py` and `src/config.py` -/

def W_RISK : ℚ := 0.4
def W_ECONOMIC : ℚ := 0.3
def W_CREDIBILITY : ℚ := 0.2
def W_RECENCY : ℚ := 0.1

def ECONOMIC_WEIGHT_MAP : EconomicImpact → ℚ
  | .low => 0.2
  | .medium => 0.5
  | .high => 1.0

/-- `SOURCE_CREDIBILITY.get(signal.source.value, 0.5)`: the table holds all
four enum values, so the 0.5 default is unreachable for a well-formed
`Signal`. -/
def SOURCE_CREDIBILITY : SourceType → ℚ
  | .government => 1.0
  | .news => 0.85
  | .citizen_report => 0.7
  | .social_media => 0.5

/-- `_recency_weight`, as a function of the signal's age in hours. -/
def _recency_weight (hoursAgo : ℚ) : ℚ :=
  if hoursAgo ≤ 1 then 1.0
  else if hoursAgo ≤ 6 then 0.8
  else if hoursAgo ≤ 24 then 0.5
  else if hoursAgo ≤ 72 then 0.3
  else 0.1

/-- `compute_priority`: weighted sum of risk, economic impact, source
credibility and recency, clamped to 1 and rounded to 4 decimals. -/
def compute_priority (signal : Signal) (analysis : RiskAnalysis) : ℚ :=
  let r : ℚ := (analysis.risk_level : ℚ) / 5
  let e := ECONOMIC_WEIGHT_MAP analysis.economic_impact
  let c := SOURCE_CREDIBILITY signal.source
  let t := _recency_weight signal.hoursAgo
  let score := W_RISK * r + W_ECONOMIC * e + W_CREDIBILITY * c + W_RECENCY * t
  pyRound (min score 1) 4

/-- The alert built for one `(signal, analysis)` pair before ranking. -/
def mkAlert (p : Signal × RiskAnalysis) : PrioritizedAlert :=
  { signal := p.1
    analysis := p.2
    priority_score := compute_priority p.1 p.2
    rank := 0 }

/-- The comparison used by `alerts.sort(key=lambda a: a.priority_score,
reverse=True)`: descending on score, stable on ties. -/
def alertLE (a b : PrioritizedAlert) : Bool :=
  decide (b.priority_score ≤ a.priority_score)

/-- `prioritize_alerts`: score each pair, sort descending by score with a
stable sort, then assign `rank = i + 1` in sorted order. -/
def prioritize_alerts (pairs : List (Signal × RiskAnalysis)) :
    List PrioritizedAlert :=
  let alerts := pairs.map mkAlert
  let sorted := alerts.mergeSort alertLE
  sorted.enum.map (fun ia => { ia.2 with rank := (ia.1 : ℤ) + 1 })

/-! ## Arithmetic facts about `roundHalfEven` and `pyRound` -/

theorem roundHalfEven_le (q : ℚ) : (roundHalfEven q : ℚ) ≤ q + 1 / 2 := by
  unfold roundHalfEven
  split_ifs with h1 h2
  · have := Int.floor_le q
    linarith
  · push_cast
    linarith
  · have habs := abs_le.mp (abs_sub_round q)
    linarith [habs.1, habs.2]

theorem le_roundHalfEven (q : ℚ) : q - 1 / 2 ≤ (roundHalfEven q : ℚ) := by
  unfold roundHalfEven
  split_ifs with h1 h2
  · linarith
  · push_cast
    linarith
  · have habs := abs_le.mp (abs_sub_round q)
    linarith [habs.1, habs.2]

theorem roundHalfEven_intCast (n : ℤ) : roundHalfEven (n : ℚ) = n := by
  unfold roundHalfEven
  rw [Int.floor_intCast]
  split_ifs with h1 h2
  · norm_num at h1
  · norm_num at h1
  · exact round_intCast n

theorem roundHalfEven_mono {x y : ℚ} (h : x ≤ y) :
    roundHalfEven x ≤ roundHalfEven y := by
  by_contra hc
  push_neg at hc
  have h1 := roundHalfEven_le x
  have h2 := le_roundHalfEven y
  have h3 : (roundHalfEven y : ℚ) + 1 ≤ (roundHalfEven x : ℚ) := by
    exact_mod_cast Int.add_one_le_iff.mpr hc
  have hxy : y ≤ x := by linarith
  have hxx : x = y := le_antisymm h hxy
  rw [hxx] at hc
  exact lt_irrefl _ hc

theorem roundHalfEven_le_of_le {q : ℚ} {n : ℤ} (h : q ≤ (n : ℚ)) :
    roundHalfEven q ≤ n := by
  have h1 := roundHalfEven_le q
  have h2 : (roundHalfEven q : ℚ) < (n : ℚ) + 1 := by linarith
  have h3 : roundHalfEven q < n + 1 := by exact_mod_cast h2
  omega

theorem le_roundHalfEven_of_le {q : ℚ} {n : ℤ} (h : (n : ℚ) ≤ q) :
    n ≤ roundHalfEven q := by
  have h1 := le_roundHalfEven q
  have h2 : (n : ℚ) - 1 < (roundHalfEven q : ℚ) := by linarith
  have h3 : n - 1 < roundHalfEven q := by exact_mod_cast h2
  omega

theorem div_pow_le_div_pow {a b : ℚ} (d : ℕ) (h : a ≤ b) :
    a / 10 ^ d ≤ b / 10 ^ d := by
  rw [div_eq_mul_inv, div_eq_mul_inv]
  exact mul_le_mul_of_nonneg_right h (by positivity)

theorem pyRound_mono {x y : ℚ} (h : x ≤ y) (d : ℕ) :
    pyRound x d ≤ pyRound y d := by
  unfold pyRound
  apply div_pow_le_div_pow
  exact_mod_cast roundHalfEven_mono (mul_le_mul_of_nonneg_right h (by positivity))

theorem pyRound_le_add (q : ℚ) (d : ℕ) : pyRound q d ≤ q + 1 / (2 * 10 ^ d) := by
  unfold pyRound
  have hp : (0 : ℚ) < 10 ^ d := by positivity
  rw [div_le_iff₀ hp]
  have he : (q + 1 / (2 * 10 ^ d)) * 10 ^ d = q * 10 ^ d + 1 / 2 := by
    field_simp
    ring
  rw [he]
  exact roundHalfEven_le (q * 10 ^ d)

theorem sub_le_pyRound (q : ℚ) (d : ℕ) : q - 1 / (2 * 10 ^ d) ≤ pyRound q d := by
  unfold pyRound
  have hp : (0 : ℚ) < 10 ^ d := by positivity
  rw [le_div_iff₀ hp]
  have he : (q - 1 / (2 * 10 ^ d)) * 10 ^ d = q * 10 ^ d - 1 / 2 := by
    field_simp
    ring
  rw [he]
  exact le_roundHalfEven (q * 10 ^ d)

theorem pyRound_le_of_le {q : ℚ} {n : ℤ} {d : ℕ} (h : q ≤ (n : ℚ) / 10 ^ d) :
    pyRound q d ≤ (n : ℚ) / 10 ^ d := by
  unfold pyRound
  have hp : (0 : ℚ) < 10 ^ d := by positivity
  apply div_pow_le_div_pow
  exact_mod_cast roundHalfEven_le_of_le ((le_div_iff₀ hp).mp h)

theorem le_pyRound_of_le {q : ℚ} {n : ℤ} {d : ℕ} (h : (n : ℚ) / 10 ^ d ≤ q) :
    (n : ℚ) / 10 ^ d ≤ pyRound q d := by
  unfold pyRound
  have hp : (0 : ℚ) < 10 ^ d := by positivity
  apply div_pow_le_div_pow
  exact_mod_cast le_roundHalfEven_of_le ((div_le_iff₀ hp).mp h)

theorem pyRound_eq_of_mul {q : ℚ} {n : ℤ} {d : ℕ} (h : q * 10 ^ d = (n : ℚ)) :
    pyRound q d = q := by
  unfold pyRound
  rw [h, roundHalfEven_intCast, div_eq_iff (by positivity : (10 : ℚ) ^ d ≠ 0)]
  exact h.symm

/-! ## C9 — RiskAnalysis validation -/

/-- **C9.**  `RiskAnalysis` construction succeeds, preserving `risk_level`
and `confidence` unchanged (no clamping), exactly when `risk_level ∈ [1,5]`
and `confidence ∈ [0,1]`; it fails for every value outside those ranges. -/
theorem C9_riskanalysis_validation (category : RiskCategory) (risk_level : ℤ)
    (economic_impact : EconomicImpact) (confidence : ℚ)
    (keywords : List Str) (summary : Str) :
    (∃ r, mkRiskAnalysis category risk_level economic_impact confidence
        keywords summary = some r ∧
      r.risk_level = risk_level ∧ r.confidence = confidence) ↔
    (1 ≤ risk_level ∧ risk_level ≤ 5 ∧ 0 ≤ confidence ∧ confidence ≤ 1) := by
  unfold mkRiskAnalysis
  split_ifs with h
  · exact ⟨fun _ => h, fun _ => ⟨_, rfl, rfl, rfl⟩⟩
  · refine ⟨?_, fun hh => absurd hh h⟩
    rintro ⟨r, hr, -⟩
    exact hr.elim

/-! ## C2 — the zh gate of the hybrid reconciler -/

/-- **C2.**  For Chinese text the hybrid reconciler's final category is the
Chinese keyword matcher's category, whatever the statistical classifier
predicts: the ML-override branch is gated to English. -/
theorem C2_zh_never_overridden (predict : Str → RiskCategory × ℚ) (text : Str) :
    (_hybrid_classify predict text Lang.zh).1 = (match_zh_category text).1 := by
  unfold _hybrid_classify
  have hkw : kwResult text Lang.zh = match_zh_category text := rfl
  rw [hkw]
  dsimp only
  split_ifs with h1 h2 h3
  · rfl
  · rfl
  · exact absurd h3.2 (by decide)
  · rfl

/-! ## C4 — severity mapping -/

/-- **C4.**  The severity assessor maps distinct escalation-keyword hit
counts in fixed priority order: ≥2 high hits → (5, high); exactly 1 high
hit → (4, high); else ≥2 medium hits → (3, medium); exactly 1 medium hit →
(2, medium); otherwise (1, low).  In particular 1 high hit and 3 medium
hits resolve to (4, high). -/
theorem C4_severity_mapping (text : Str) (lang : Lang) :
    (2 ≤ highHits text lang → _assess_severity text lang = (5, .high)) ∧
    (highHits text lang = 1 → _assess_severity text lang = (4, .high)) ∧
    (highHits text lang = 0 → 2 ≤ medHits text lang →
      _assess_severity text lang = (3, .medium)) ∧
    (highHits text lang = 0 → medHits text lang = 1 →
      _assess_severity text lang = (2, .medium)) ∧
    (highHits text lang = 0 → medHits text lang = 0 →
      _assess_severity text lang = (1, .low)) ∧
    (highHits text lang = 1 → medHits text lang = 3 →
      _assess_severity text lang = (4, .high)) := by
  unfold _assess_severity
  dsimp only
  refine ⟨?_, ?_, ?_, ?_, ?_, ?_⟩ <;> intros <;> split_ifs <;>
    first
      | rfl
      | omega

/-- **C4, witness.**  "emergency closed blocked suspended" has exactly one
high-severity hit and three medium-severity hits and resolves to level 4,
impact high. -/
theorem C4_severity_witness :
    highHits "emergency closed blocked suspended".data Lang.en = 1 ∧
    medHits "emergency closed blocked suspended".data Lang.en = 3 ∧
    _assess_severity "emergency closed blocked suspended".data Lang.en =
      (4, .high) := by
  have h1 : highHits "emergency closed blocked suspended".data Lang.en = 1 := by
    decide
  have h2 : medHits "emergency closed blocked suspended".data Lang.en = 3 := by
    decide
  exact ⟨h1, h2,
    (C4_severity_mapping "emergency closed blocked suspended".data Lang.en).2.2.2.2.2 h1 h2⟩

/-! ## C1 — agreement confidence of the hybrid reconciler -/

theorem kwConfidence_le (n : ℕ) : kwConfidence n ≤ 0.95 := by
  unfold kwConfidence
  exact min_le_left _ _

/-- **C1, amended.**  When the keyword matcher and the statistical
classifier agree, the reconciler's returned confidence is at least the
*minimum* of the two component confidences, and at most 0.95.  (It can
drop below the larger component: see the counterexample.) -/
theorem C1_agreement_confidence (predict : Str → RiskCategory × ℚ)
    (text : Str) (lang : Lang)
    (hagree : (kwResult text lang).1 = (predict text).1) :
    min (kwConfidence (kwResult text lang).2.length) (predict text).2 ≤
      (_hybrid_classify predict text lang).2.2 ∧
    (_hybrid_classify predict text lang).2.2 ≤ 0.95 := by
  unfold _hybrid_classify
  dsimp only
  rw [if_pos hagree]
  dsimp only
  set kc := kwConfidence (kwResult text lang).2.length with hkc
  set mc := (predict text).2 with hmc
  have hkc95 : kc ≤ 0.95 := kwConfidence_le _
  have hm1 : min kc mc ≤ kc := min_le_left _ _
  have hm2 : min kc mc ≤ mc := min_le_right _ _
  constructor
  · rcases le_total (kc * 0.6 + mc * 0.4 + 0.05) 0.95 with hle | hgt
    · rw [min_eq_right hle, min_eq_left hle]
      have hlow := sub_le_pyRound (kc * 0.6 + mc * 0.4 + 0.05) 2
      have h200 : (1 : ℚ) / (2 * 10 ^ 2) = 1 / 200 := by norm_num
      rw [h200] at hlow
      linarith
    · rw [min_eq_left hgt, min_self]
      rw [pyRound_eq_of_mul (n := 95) (by norm_num)]
      linarith
  · have h95 : ((95 : ℤ) : ℚ) / 10 ^ 2 = 0.95 := by norm_num
    have hw : min (min (0.95 : ℚ) (kc * 0.6 + mc * 0.4 + 0.05)) 0.95 ≤
        ((95 : ℤ) : ℚ) / 10 ^ 2 := by
      rw [h95]
      exact min_le_right _ _
    calc pyRound (min (min (0.95 : ℚ) (kc * 0.6 + mc * 0.4 + 0.05)) 0.95) 2
        ≤ ((95 : ℤ) : ℚ) / 10 ^ 2 := pyRound_le_of_le hw
      _ = 0.95 := h95

/-- A classifier oracle agreeing with the keyword matcher on `cexC1` at a
low posterior probability. -/
def predictC1 : Str → RiskCategory × ℚ := fun _ => (.infrastructure, 0.3)

/-- A text with five (truncated) infrastructure keyword matches, so
`kw_confidence = 0.95`. -/
def cexC1 : Str := "collapse crack sinkhole flood power outage".data

/-- **C1, counterexample.**  On `cexC1` the matcher and the classifier both
say infrastructure, `kw_confidence = 0.95`, yet the returned confidence is
`round(0.95*0.6 + 0.3*0.4 + 0.05, 2) = 0.74 < 0.95`: the claim that the
returned confidence is ≥ each component confidence (up to the 0.95 cap)
fails. -/
theorem C1_counterexample :
    (kwResult cexC1 Lang.en).1 = (predictC1 cexC1).1 ∧
    kwConfidence (kwResult cexC1 Lang.en).2.length = 0.95 ∧
    (_hybrid_classify predictC1 cexC1 Lang.en).2.2 = 0.74 ∧
    ¬ (min 0.95 (kwConfidence (kwResult cexC1 Lang.en).2.length) ≤
        (_hybrid_classify predictC1 cexC1 Lang.en).2.2) := by
  have hm : kwResult cexC1 Lang.en = (.infrastructure,
      strs ["collapse", "crack", "sinkhole", "flood", "power outage"]) := by
    decide
  have hlen : (strs ["collapse", "crack", "sinkhole", "flood", "power outage"]).length = 5 :=
    rfl
  have hkc : kwConfidence 5 = 0.95 := by
    unfold kwConfidence
    push_cast
    exact min_eq_left (by norm_num)
  have hval : (_hybrid_classify predictC1 cexC1 Lang.en).2.2 = 0.74 := by
    unfold _hybrid_classify
    rw [hm]
    dsimp only [predictC1]
    rw [if_pos rfl]
    dsimp only
    rw [hlen, hkc]
    rw [show (0.95 : ℚ) * 0.6 + 0.3 * 0.4 + 0.05 = 0.74 by norm_num]
    rw [min_eq_right (by norm_num : (0.74 : ℚ) ≤ 0.95),
      min_eq_left (by norm_num : (0.74 : ℚ) ≤ 0.95)]
    exact pyRound_eq_of_mul (n := 74) (by norm_num)
  refine ⟨by rw [hm]; rfl, ?_, hval, ?_⟩
  · rw [hm, hlen, hkc]
  · rw [hm, hlen, hkc, hval]
    norm_num

/-- A classifier oracle agreeing with the keyword matcher on "robbery". -/
def predictW : Str → RiskCategory × ℚ := fun _ => (.crime, 0.8)

/-- **C1, witness.**  The amended bound instantiated on the text
"robbery" with an agreeing classifier at confidence 0.8. -/
theorem C1_agreement_witness :
    min (kwConfidence (kwResult "robbery".data Lang.en).2.length)
        ((predictW "robbery".data).2) ≤
      (_hybrid_classify predictW "robbery".data Lang.en).2.2 ∧
    (_hybrid_classify predictW "robbery".data Lang.en).2.2 ≤ 0.95 :=
  C1_agreement_confidence predictW "robbery".data Lang.en (by decide)

/-! ## C6 — monotonicity of `compute_priority` -/

/-- Order of the economic-impact tiers (low < medium < high). -/
def EconomicImpact.tier : EconomicImpact → ℕ
  | .low => 0
  | .medium => 1
  | .high => 2

/-- Order of the source kinds by credibility
(social_media < citizen_report < news < government). -/
def SourceType.credRank : SourceType → ℕ
  | .social_media => 0
  | .citizen_report => 1
  | .news => 2
  | .government => 3

theorem ECONOMIC_WEIGHT_MAP_mono {e₁ e₂ : EconomicImpact}
    (h : e₁.tier ≤ e₂.tier) :
    ECONOMIC_WEIGHT_MAP e₁ ≤ ECONOMIC_WEIGHT_MAP e₂ := by
  cases e₁ <;> cases e₂ <;>
    simp_all [EconomicImpact.tier, ECONOMIC_WEIGHT_MAP] <;> norm_num

theorem SOURCE_CREDIBILITY_mono {c₁ c₂ : SourceType}
    (h : c₁.credRank ≤ c₂.credRank) :
    SOURCE_CREDIBILITY c₁ ≤ SOURCE_CREDIBILITY c₂ := by
  cases c₁ <;> cases c₂ <;>
    simp_all [SourceType.credRank, SOURCE_CREDIBILITY] <;> norm_num

theorem recency_weight_antitone {t₁ t₂ : ℚ} (h : t₁ ≤ t₂) :
    _recency_weight t₂ ≤ _recency_weight t₁ := by
  unfold _recency_weight
  split_ifs <;> linarith

theorem compute_priority_le_compute_priority {s₁ s₂ : Signal}
    {a₁ a₂ : RiskAnalysis}
    (h1 : (a₁.risk_level : ℚ) ≤ (a₂.risk_level : ℚ))
    (h2 : ECONOMIC_WEIGHT_MAP a₁.economic_impact ≤
      ECONOMIC_WEIGHT_MAP a₂.economic_impact)
    (h3 : SOURCE_CREDIBILITY s₁.source ≤ SOURCE_CREDIBILITY s₂.source)
    (h4 : _recency_weight s₁.hoursAgo ≤ _recency_weight s₂.hoursAgo) :
    compute_priority s₁ a₁ ≤ compute_priority s₂ a₂ := by
  unfold compute_priority
  dsimp only
  apply pyRound_mono
  apply min_le_min _ le_rfl
  unfold W_RISK W_ECONOMIC W_CREDIBILITY W_RECENCY
  have hr : (a₁.risk_level : ℚ) / 5 ≤ (a₂.risk_level : ℚ) / 5 := by linarith
  linarith

/-- **C6.**  `compute_priority` is monotonically non-decreasing in each
factor separately: risk level, economic-impact tier, source-credibility
rank, and recency (a more recent timestamp, i.e. smaller age, never yields
a lower score). -/
theorem C6_compute_priority_monotone (s : Signal) (a : RiskAnalysis) :
    (∀ l₁ l₂ : ℤ, l₁ ≤ l₂ →
      compute_priority s { a with risk_level := l₁ } ≤
        compute_priority s { a with risk_level := l₂ }) ∧
    (∀ e₁ e₂ : EconomicImpact, e₁.tier ≤ e₂.tier →
      compute_priority s { a with economic_impact := e₁ } ≤
        compute_priority s { a with economic_impact := e₂ }) ∧
    (∀ c₁ c₂ : SourceType, c₁.credRank ≤ c₂.credRank →
      compute_priority { s with source := c₁ } a ≤
        compute_priority { s with source := c₂ } a) ∧
    (∀ t₁ t₂ : ℚ, t₁ ≤ t₂ →
      compute_priority { s with hoursAgo := t₂ } a ≤
        compute_priority { s with hoursAgo := t₁ } a) := by
  refine ⟨?_, ?_, ?_, ?_⟩
  · intro l₁ l₂ h
    exact compute_priority_le_compute_priority (by exact_mod_cast h)
      le_rfl le_rfl le_rfl
  · intro e₁ e₂ h
    exact compute_priority_le_compute_priority le_rfl
      (ECONOMIC_WEIGHT_MAP_mono h) le_rfl le_rfl
  · intro c₁ c₂ h
    exact compute_priority_le_compute_priority le_rfl le_rfl
      (SOURCE_CREDIBILITY_mono h) le_rfl
  · intro t₁ t₂ h
    exact compute_priority_le_compute_priority le_rfl le_rfl le_rfl
      (recency_weight_antitone h)

/-- Base signal used to instantiate the scorer theorems. -/
def sigW : Signal :=
  { id := [], text := [], source := .news, location := [], hoursAgo := 0 }

/-- Base analysis used to instantiate the scorer theorems. -/
def anaW : RiskAnalysis :=
  { category := .crime, risk_level := 3, economic_impact := .medium,
    confidence := 0.5, keywords := [], summary := [] }

/-- **C6, witness.**  The four monotonicity statements instantiated at
concrete endpoints. -/
theorem C6_monotone_witness :
    ((1 : ℤ) ≤ 5 ∧
      compute_priority sigW { anaW with risk_level := 1 } ≤
        compute_priority sigW { anaW with risk_level := 5 }) ∧
    (EconomicImpact.low.tier ≤ EconomicImpact.high.tier ∧
      compute_priority sigW { anaW with economic_impact := .low } ≤
        compute_priority sigW { anaW with economic_impact := .high }) ∧
    (SourceType.social_media.credRank ≤ SourceType.government.credRank ∧
      compute_priority { sigW with source := .social_media } anaW ≤
        compute_priority { sigW with source := .government } anaW) ∧
    ((0 : ℚ) ≤ 48 ∧
      compute_priority { sigW with hoursAgo := 48 } anaW ≤
        compute_priority { sigW with hoursAgo := 0 } anaW) :=
  ⟨⟨by norm_num, (C6_compute_priority_monotone sigW anaW).1 1 5 (by norm_num)⟩,
   ⟨by decide, (C6_compute_priority_monotone sigW anaW).2.1 .low .high (by decide)⟩,
   ⟨by decide, (C6_compute_priority_monotone sigW anaW).2.2.1 .social_media .government (by decide)⟩,
   ⟨by norm_num, (C6_compute_priority_monotone sigW anaW).2.2.2 0 48 (by norm_num)⟩⟩

/-! ## C10 — lower bound on `compute_priority` -/

theorem quarter_le_pyRound_min {q : ℚ} (h : 0.25 ≤ q) :
    0.25 ≤ pyRound (min q 1) 4 := by
  have h25 : ((2500 : ℤ) : ℚ) / 10 ^ 4 = 0.25 := by norm_num
  have hmin : ((2500 : ℤ) : ℚ) / 10 ^ 4 ≤ min q 1 := by
    rw [h25]
    exact le_min h (by norm_num)
  have hp := le_pyRound_of_le hmin
  rw [h25] at hp
  exact hp

/-- **C10.**  For every well-formed input (`risk_level ≥ 1`), the priority
score is at least 0.25: the four weighted terms are bounded below by
0.4·(1/5), 0.3·0.2, 0.2·0.5 and 0.1·0.1 respectively. -/
theorem C10_priority_lower_bound (s : Signal) (a : RiskAnalysis)
    (h : 1 ≤ a.risk_level) :
    0.25 ≤ compute_priority s a := by
  unfold compute_priority
  dsimp only
  apply quarter_le_pyRound_min
  have h1 : (1 : ℚ) ≤ (a.risk_level : ℚ) := by exact_mod_cast h
  have h2 : (0.2 : ℚ) ≤ ECONOMIC_WEIGHT_MAP a.economic_impact := by
    cases a.economic_impact <;> norm_num [ECONOMIC_WEIGHT_MAP]
  have h3 : (0.5 : ℚ) ≤ SOURCE_CREDIBILITY s.source := by
    cases s.source <;> norm_num [SOURCE_CREDIBILITY]
  have h4 : (0.1 : ℚ) ≤ _recency_weight s.hoursAgo := by
    unfold _recency_weight
    split_ifs <;> norm_num
  unfold W_RISK W_ECONOMIC W_CREDIBILITY W_RECENCY
  have hr : (0.2 : ℚ) ≤ (a.risk_level : ℚ) / 5 := by linarith
  linarith

/-- **C10, witness.**  Instantiated at a concrete signal and analysis. -/
theorem C10_priority_witness :
    (1 : ℤ) ≤ anaW.risk_level ∧ (0.25 : ℚ) ≤ compute_priority sigW anaW :=
  ⟨by decide, C10_priority_lower_bound sigW anaW (by decide)⟩

/-! ## C8 — the "Power outage" end-to-end scenario -/

/-- The scenario text of the claim. -/
def cexC8 : Str :=
  "Power outage affecting 12,000 households in northern district.".data

/-- A signal carrying the scenario text. -/
def sigC8 : Signal :=
  { id := "s1".data, text := cexC8, source := .news, location := [],
    hoursAgo := 0 }

/-- **C8, counterexample.**  The claim attributes the risk level to *two*
high-severity hits, "12,000" and "outage"; in the code "outage" is a
*medium*-severity keyword and the text has exactly one high-severity hit. -/
theorem C8_counterexample :
    highHits cexC8 Lang.en ≠ 2 ∧
    "outage".data ∉ HIGH_SEVERITY ∧
    "outage".data ∈ MEDIUM_SEVERITY := by
  refine ⟨by decide, by decide, by decide⟩

/-- **C8, amended.**  For every classifier prediction, analysing the
scenario signal yields category infrastructure (the two keyword hits
"power outage" and "outage" force the keyword result through every
reconciliation branch) and risk level exactly 4, arising from exactly one
high-severity hit, the magnitude term "12,000" ("outage" counts as
medium). -/
theorem C8_power_outage_analysis (predict : Str → RiskCategory × ℚ) :
    (analyze_signal predict sigC8).category = RiskCategory.infrastructure ∧
    (analyze_signal predict sigC8).risk_level = 4 ∧
    highHits cexC8 Lang.en = 1 := by
  have hcjk : cjkCount cexC8 = 0 := by decide
  have hr : langRatio cexC8 = 0 := by
    rw [show langRatio cexC8 =
      (cjkCount cexC8 : ℚ) / ((max (pyStrip cexC8).length 1 : ℕ) : ℚ) from rfl,
      hcjk]
    norm_num
  have hlang : detect_language cexC8 = Lang.en := by
    rw [detect_language_eq, hr]
    norm_num
  have hm : kwResult cexC8 Lang.en =
      (.infrastructure, strs ["power outage", "outage"]) := by decide
  have hsev : _assess_severity cexC8 Lang.en = (4, .high) := by decide
  have hcat : ∀ p : Str → RiskCategory × ℚ,
      (_hybrid_classify p cexC8 Lang.en).1 = RiskCategory.infrastructure := by
    intro p
    unfold _hybrid_classify
    rw [hm]
    dsimp only
    split_ifs with h1 h2 h3
    · exact h1.symm ▸ rfl
    · rfl
    · exact absurd (by decide : 2 ≤ (strs ["power outage", "outage"]).length) h2
    · rfl
  simp only [analyze_signal, sigC8]
  rw [hlang]
  rw [hsev]
  exact ⟨hcat predict, rfl, by decide⟩

/-! ## C7 — keyword matcher: truncation, tie-break and default -/

/-- A four-entry keyword table in declaration order. -/
def matchTable (kwOf : RiskCategory → List Str) : List (RiskCategory × List Str) :=
  [(.crime, kwOf .crime), (.traffic, kwOf .traffic),
   (.fraud, kwOf .fraud), (.infrastructure, kwOf .infrastructure)]

/-- The un-truncated matcher loop over a four-entry table. -/
def runMatch (st : Str) (kwOf : RiskCategory → List Str) :
    RiskCategory × List Str :=
  matchGo st (matchTable kwOf) RiskCategory.infrastructure 0 []

theorem runMatch_spec (st : Str) (kwOf : RiskCategory → List Str) :
    (runMatch st kwOf).2 = hitsIn st (kwOf (runMatch st kwOf).1) ∧
    ((∀ c, (hitsIn st (kwOf c)).length = 0) →
      runMatch st kwOf = (.infrastructure, [])) ∧
    (∀ c, (hitsIn st (kwOf c)).length ≤
      (hitsIn st (kwOf (runMatch st kwOf).1)).length) ∧
    (0 < (hitsIn st (kwOf (runMatch st kwOf).1)).length →
      ∀ c, c.declIdx < (runMatch st kwOf).1.declIdx →
        (hitsIn st (kwOf c)).length <
          (hitsIn st (kwOf (runMatch st kwOf).1)).length) := by
  simp only [runMatch, matchTable, matchGo]
  split_ifs
  all_goals refine ⟨?_, fun hz => ?_, fun c => ?_, fun hpos c hlt => ?_⟩
  all_goals try (cases c <;> dsimp only <;> omega)
  all_goals try
    (cases c <;> dsimp only at hpos hlt ⊢ <;>
      simp only [RiskCategory.declIdx] at hlt <;> omega)
  all_goals
    first
      | rfl
      | (dsimp only
         exact (List.length_eq_zero.mp (by omega)).symm)
      | (have z0 := hz .crime
         have z1 := hz .traffic
         have z2 := hz .fraud
         have z3 := hz .infrastructure
         omega)

/-- The English hit list of one category
(`[kw for kw in keywords if kw in text_lower]`). -/
def enHits (text : Str) (c : RiskCategory) : List Str :=
  hitsIn (pyLower text) (catKeywords c)

/-- The Chinese hit list of one category. -/
def zhHits (text : Str) (c : RiskCategory) : List Str :=
  hitsIn text (zhCatKeywords c)

theorem match_category_runMatch (text : Str) :
    _match_category text =
      ((runMatch (pyLower text) catKeywords).1,
       (runMatch (pyLower text) catKeywords).2.take 5) := rfl

theorem match_zh_category_runMatch (text : Str) :
    match_zh_category text =
      ((runMatch text zhCatKeywords).1,
       (runMatch text zhCatKeywords).2.take 5) := rfl

/-- **C7.**  For both keyword matchers: the returned keyword list is the
winner's hit list truncated to its first five entries (so never longer
than 5); if every category scores zero the fixed default
(Infrastructure Failure, empty list) is returned; the winner's distinct-hit
count is maximal; and when the winner has a positive count, every category
earlier in declaration order scores strictly fewer hits (ties keep the
first-evaluated category). -/
theorem C7_keyword_matcher_spec (text : Str) :
    ((_match_category text).2.length ≤ 5) ∧
    ((match_zh_category text).2.length ≤ 5) ∧
    ((∀ c, (enHits text c).length = 0) →
      _match_category text = (.infrastructure, [])) ∧
    ((∀ c, (zhHits text c).length = 0) →
      match_zh_category text = (.infrastructure, [])) ∧
    (∀ c, (enHits text c).length ≤
      (enHits text (_match_category text).1).length) ∧
    (0 < (enHits text (_match_category text).1).length →
      ∀ c, c.declIdx < (_match_category text).1.declIdx →
        (enHits text c).length <
          (enHits text (_match_category text).1).length) ∧
    ((_match_category text).2 =
      (enHits text (_match_category text).1).take 5) ∧
    (∀ c, (zhHits text c).length ≤
      (zhHits text (match_zh_category text).1).length) ∧
    (0 < (zhHits text (match_zh_category text).1).length →
      ∀ c, c.declIdx < (match_zh_category text).1.declIdx →
        (zhHits text c).length <
          (zhHits text (match_zh_category text).1).length) ∧
    ((match_zh_category text).2 =
      (zhHits text (match_zh_category text).1).take 5) := by
  have hs := runMatch_spec (pyLower text) catKeywords
  have hz := runMatch_spec text zhCatKeywords
  have he := match_category_runMatch text
  have hzz := match_zh_category_runMatch text
  refine ⟨?_, ?_, ?_, ?_, ?_, ?_, ?_, ?_, ?_, ?_⟩
  · rw [he]
    exact List.length_take_le 5 _
  · rw [hzz]
    exact List.length_take_le 5 _
  · intro h0
    rw [he, hs.2.1 h0]
    rfl
  · intro h0
    rw [hzz, hz.2.1 h0]
    rfl
  · intro c
    rw [he]
    exact hs.2.2.1 c
  · rw [he]
    exact hs.2.2.2
  · rw [he]
    dsimp only
    rw [hs.1]
    rfl
  · intro c
    rw [hzz]
    exact hz.2.2.1 c
  · rw [hzz]
    exact hz.2.2.2
  · rw [hzz]
    dsimp only
    rw [hz.1]
    rfl

/-- **C7, witness.**  A keyword-free text falls back to the default in
both languages, and on "traffic accident" the earlier-declared crime
category scores strictly fewer hits than the winning traffic category. -/
theorem C7_matcher_witness :
    _match_category "zzz".data = (.infrastructure, []) ∧
    match_zh_category "zzz".data = (.infrastructure, []) ∧
    (enHits "traffic accident".data .crime).length <
      (enHits "traffic accident".data
        (_match_category "traffic accident".data).1).length :=
  ⟨(C7_keyword_matcher_spec "zzz".data).2.2.1 (by decide),
   (C7_keyword_matcher_spec "zzz".data).2.2.2.1 (by decide),
   (C7_keyword_matcher_spec "traffic accident".data).2.2.2.2.2.1
     (by decide) RiskCategory.crime (by decide)⟩

/-! ## C5 — scoring, stable descending sort and ranking -/

/-- Forget the rank of an alert (all alerts carry rank 0 before ranking). -/
def derank (a : PrioritizedAlert) : PrioritizedAlert := { a with rank := 0 }

theorem derank_eq_self {a : PrioritizedAlert} (h : a.rank = 0) : derank a = a := by
  cases a
  simp_all [derank]

theorem alertLE_trans : ∀ a b c : PrioritizedAlert,
    alertLE a b → alertLE b c → alertLE a c := by
  intro a b c hab hbc
  simp only [alertLE, decide_eq_true_eq] at *
  exact le_trans hbc hab

theorem alertLE_total : ∀ a b : PrioritizedAlert, alertLE a b || alertLE b a := by
  intro a b
  simp only [alertLE, Bool.or_eq_true, decide_eq_true_eq]
  exact le_total b.priority_score a.priority_score

theorem map_derank_enum (l : List PrioritizedAlert) (h : ∀ a ∈ l, a.rank = 0) :
    ((l.enum.map (fun ia => { ia.2 with rank := (ia.1 : ℤ) + 1 })).map derank) = l := by
  rw [List.map_map]
  have hcomp : (derank ∘ fun ia : ℕ × PrioritizedAlert =>
      { ia.2 with rank := (ia.1 : ℤ) + 1 }) = fun ia : ℕ × PrioritizedAlert =>
        derank ia.2 := rfl
  rw [hcomp]
  have h2 : l.enum.map (fun ia : ℕ × PrioritizedAlert => derank ia.2) =
      (l.enum.map Prod.snd).map derank := by
    rw [List.map_map]
    rfl
  rw [h2, List.enum_eq_enumFrom, List.enumFrom_map_snd]
  exact (List.map_congr_left (fun a ha => derank_eq_self (h a ha))).trans
    (List.map_id l)

theorem enum_rank_range' (l : List PrioritizedAlert) :
    l.enum.map (fun ia => ((ia.1 : ℤ) + 1)) =
      (List.range' 1 l.length).map (fun i : ℕ => (i : ℤ)) := by
  have h1 : l.enum.map (fun ia => ((ia.1 : ℤ) + 1)) =
      (l.enum.map Prod.fst).map (fun i : ℕ => (i : ℤ) + 1) := by
    rw [List.map_map]
    rfl
  rw [h1, List.enum_eq_enumFrom, List.enumFrom_map_fst,
    List.range'_eq_map_range, List.range'_eq_map_range]
  simp only [List.map_map]
  apply List.map_congr_left
  intro i hi
  simp only [Function.comp_apply]
  push_cast
  ring

/-- **C5.**  `prioritize_alerts` returns one alert per input pair (a
permutation of the scored pairs, up to the rank field), sorted
non-increasingly by priority score with ties keeping the original
relative order (stability via the stable merge sort), ranks assigned as
the contiguous sequence 1..N in sorted order; the empty input yields the
empty output. -/
theorem C5_prioritize_alerts_spec (pairs : List (Signal × RiskAnalysis)) :
    (prioritize_alerts [] = []) ∧
    ((prioritize_alerts pairs).length = pairs.length) ∧
    (((prioritize_alerts pairs).map derank).Perm (pairs.map mkAlert)) ∧
    (((prioritize_alerts pairs).map PrioritizedAlert.priority_score).Pairwise
      (fun x y => y ≤ x)) ∧
    ((prioritize_alerts pairs).map PrioritizedAlert.rank =
      (List.range' 1 pairs.length).map (fun i : ℕ => (i : ℤ))) ∧
    (∀ x y : PrioritizedAlert, [x, y].Sublist (pairs.map mkAlert) →
      x.priority_score = y.priority_score →
      [x, y].Sublist ((prioritize_alerts pairs).map derank)) := by
  have hperm := List.mergeSort_perm (pairs.map mkAlert) alertLE
  have hrank0 : ∀ a ∈ (pairs.map mkAlert).mergeSort alertLE, a.rank = 0 := by
    intro a ha
    have hmem : a ∈ pairs.map mkAlert := hperm.mem_iff.mp ha
    obtain ⟨p, -, rfl⟩ := List.mem_map.mp hmem
    rfl
  have hder : (prioritize_alerts pairs).map derank =
      (pairs.map mkAlert).mergeSort alertLE := by
    simp only [prioritize_alerts]
    exact map_derank_enum _ hrank0
  refine ⟨by simp [prioritize_alerts], ?_, ?_, ?_, ?_, ?_⟩
  · have h1 : ((prioritize_alerts pairs).map derank).length =
        ((pairs.map mkAlert).mergeSort alertLE).length := by rw [hder]
    rw [List.length_map] at h1
    rw [h1, hperm.length_eq, List.length_map]
  · rw [hder]
    exact hperm
  · have hs : (prioritize_alerts pairs).map PrioritizedAlert.priority_score =
        ((prioritize_alerts pairs).map derank).map PrioritizedAlert.priority_score := by
      rw [List.map_map]
      rfl
    rw [hs, hder]
    have hsorted := List.sorted_mergeSort alertLE_trans alertLE_total
      (pairs.map mkAlert)
    rw [List.pairwise_map]
    refine hsorted.imp ?_
    intro a b hab
    simpa [alertLE, decide_eq_true_eq] using hab
  · have hr : (prioritize_alerts pairs).map PrioritizedAlert.rank =
        ((pairs.map mkAlert).mergeSort alertLE).enum.map
          (fun ia => ((ia.1 : ℤ) + 1)) := by
      simp only [prioritize_alerts]
      rw [List.map_map]
      rfl
    rw [hr, enum_rank_range', hperm.length_eq, List.length_map]
  · intro x y hsub heq
    rw [hder]
    apply List.pair_sublist_mergeSort alertLE_trans alertLE_total _ hsub
    simp [alertLE, heq]

/-- **C5, witness.**  Two identically scored pairs keep their original
relative order in the ranked output. -/
theorem C5_stability_witness :
    [mkAlert (sigW, anaW), mkAlert (sigW, anaW)].Sublist
      ((prioritize_alerts [(sigW, anaW), (sigW, anaW)]).map derank) :=
  (C5_prioritize_alerts_spec [(sigW, anaW), (sigW, anaW)]).2.2.2.2.2
    (mkAlert (sigW, anaW)) (mkAlert (sigW, anaW)) (List.Sublist.refl _) rfl

end UrbanSentinel
